import Mathlib

/-!
Shallow embedding of `homework.py`: a workout-statistics calculator with a
base `Training` abstraction and three variants (`Running`, `SportsWalking`,
`Swimming`), an `InfoMessage` report with a fixed-point 3-decimal renderer,
and a `read_package` dispatcher from activity codes to variants.

Modelling choices: Python floats are exact rationals (`ℚ`); a
`ZeroDivisionError` is modelled by an `Option` result (`none` = the call
raises); the in-place field mutation in `SportsWalking.get_spent_calories`
is modelled by explicit state passing (the method returns the updated
object alongside its result).
-/

/-- Report record `InfoMessage` (numeric fields only; the template string
of the class is embedded in `InfoMessage.get_message`). -/
structure InfoMessage where
  training_type : String
  duration : ℚ
  distance : ℚ
  speed : ℚ
  calories : ℚ
deriving DecidableEq, Repr

namespace Training

/-- Constant `Training.LEN_STEP = 0.65` (metres per step). -/
def LEN_STEP : ℚ := 0.65

/-- Constant `Training.M_IN_KM = 1000`. -/
def M_IN_KM : ℚ := 1000

/-- Constant `Training.MIN_IN_H = 60`. -/
def MIN_IN_H : ℚ := 60

end Training

/-- Variant `Running`: the fields set by `Training.__init__`
(`action`, `duration`, `weight_kg`). -/
structure Running where
  action : ℚ
  duration : ℚ
  weight_kg : ℚ
deriving DecidableEq, Repr

/-- Variant `SportsWalking`: inherited fields plus `height_cm`;
`speed_ms` and `time_in_min` are the attributes created (and `height_cm`
overwritten) by `get_spent_calories` — absent (`none`) right after
construction. -/
structure SportsWalking where
  action : ℚ
  duration : ℚ
  weight_kg : ℚ
  height_cm : ℚ
  speed_ms : Option ℚ := none
  time_in_min : Option ℚ := none
deriving DecidableEq, Repr

/-- Variant `Swimming`: inherited fields plus `length_pool`,
`count_pool`. -/
structure Swimming where
  action : ℚ
  duration : ℚ
  weight_kg : ℚ
  length_pool : ℚ
  count_pool : ℚ
deriving DecidableEq, Repr

namespace Running

/-- Constant `Running.COEFF_1 = 18`. -/
def COEFF_1 : ℚ := 18

/-- Constant `Running.COEFF_2 = 1.79`. -/
def COEFF_2 : ℚ := 1.79

/-- Method `Training.get_distance` as inherited by `Running`:
`action * LEN_STEP / M_IN_KM`. -/
def get_distance (r : Running) : ℚ :=
  r.action * Training.LEN_STEP / Training.M_IN_KM

/-- Method `Training.get_mean_speed` as inherited by `Running`:
`get_distance() / duration`; raises `ZeroDivisionError` (= `none`)
when `duration = 0`. -/
def get_mean_speed (r : Running) : Option ℚ :=
  if r.duration = 0 then none else some (r.get_distance / r.duration)

/-- Method `Running.get_spent_calories`:
`(COEFF_1 * get_mean_speed() + COEFF_2) * weight_kg / M_IN_KM
  * (duration * MIN_IN_H)`. -/
def get_spent_calories (r : Running) : Option ℚ :=
  r.get_mean_speed.map fun sp =>
    (COEFF_1 * sp + COEFF_2) * r.weight_kg / Training.M_IN_KM
      * (r.duration * Training.MIN_IN_H)

/-- Method `Training.show_training_info` as inherited by `Running`; the
first raising argument (`get_mean_speed`) aborts the construction. -/
def show_training_info (r : Running) : Option InfoMessage := do
  let sp ← r.get_mean_speed
  let cal ← r.get_spent_calories
  pure ⟨"Running", r.duration, r.get_distance, sp, cal⟩

end Running

namespace SportsWalking

/-- Constant `SportsWalking.COEFF_3 = 0.035`. -/
def COEFF_3 : ℚ := 0.035

/-- Constant `SportsWalking.COEFF_4 = 0.029`. -/
def COEFF_4 : ℚ := 0.029

/-- Constant `SportsWalking.M_IN_SEC = 0.278` (km/h to m/s). -/
def M_IN_SEC : ℚ := 0.278

/-- Constant `SportsWalking.H_MET = 100` (cm to m). -/
def H_MET : ℚ := 100

/-- Method `Training.get_distance` as inherited by `SportsWalking`. -/
def get_distance (w : SportsWalking) : ℚ :=
  w.action * Training.LEN_STEP / Training.M_IN_KM

/-- Method `Training.get_mean_speed` as inherited by `SportsWalking`. -/
def get_mean_speed (w : SportsWalking) : Option ℚ :=
  if w.duration = 0 then none else some (w.get_distance / w.duration)

/-- Method `SportsWalking.get_spent_calories`. The source mutates `self`:
`self.speed_ms = get_mean_speed() * M_IN_SEC`, then
`self.height_cm = self.height_cm / H_MET`, then
`self.time_in_min = duration * MIN_IN_H`, and finally returns
`(COEFF_3 * weight_kg + (speed_ms ** 2 / height_cm) * COEFF_4 * weight_kg)
  * time_in_min`.
The updated object is returned as the second component.  A zero
`height_cm` (after the rescale) raises `ZeroDivisionError` at the return
expression, i.e. after the three field assignments took effect. -/
def get_spent_calories (w : SportsWalking) : Option ℚ × SportsWalking :=
  match w.get_mean_speed with
  | none => (none, w)
  | some sp =>
    let speed := sp * M_IN_SEC
    let height := w.height_cm / H_MET
    let minutes := w.duration * Training.MIN_IN_H
    let w2 := { w with height_cm := height, speed_ms := some speed,
                       time_in_min := some minutes }
    if height = 0 then (none, w2)
    else
      (some ((COEFF_3 * w.weight_kg
                + (speed ^ 2 / height) * COEFF_4 * w.weight_kg) * minutes),
       w2)

/-- Method `Training.show_training_info` as inherited by `SportsWalking`;
the embedded state change of `get_spent_calories` is threaded through. -/
def show_training_info (w : SportsWalking) :
    Option InfoMessage × SportsWalking :=
  match w.get_mean_speed with
  | none => (none, w)
  | some sp =>
    match w.get_spent_calories with
    | (none, w2) => (none, w2)
    | (some cal, w2) =>
      (some ⟨"SportsWalking", w.duration, w.get_distance, sp, cal⟩, w2)

end SportsWalking

namespace Swimming

/-- Constant `Swimming.LEN_STEP = 1.38` (metres per stroke), overriding
the base value. -/
def LEN_STEP : ℚ := 1.38

/-- Constant `Swimming.COEFF_5 = 1.1`. -/
def COEFF_5 : ℚ := 1.1

/-- Constant `Swimming.COEFF_6 = 2`. -/
def COEFF_6 : ℚ := 2

/-- Method `Training.get_distance` as inherited by `Swimming`, with the
overridden `LEN_STEP = 1.38`. -/
def get_distance (s : Swimming) : ℚ :=
  s.action * LEN_STEP / Training.M_IN_KM

/-- Method `Swimming.get_mean_speed` (override):
`length_pool * count_pool / M_IN_KM / duration`. -/
def get_mean_speed (s : Swimming) : Option ℚ :=
  if s.duration = 0 then none
  else some (s.length_pool * s.count_pool / Training.M_IN_KM / s.duration)

/-- Method `Swimming.get_spent_calories`:
`(get_mean_speed() + COEFF_5) * COEFF_6 * weight_kg * duration`. -/
def get_spent_calories (s : Swimming) : Option ℚ :=
  s.get_mean_speed.map fun sp =>
    (sp + COEFF_5) * COEFF_6 * s.weight_kg * s.duration

/-- Method `Training.show_training_info` as inherited by `Swimming`. -/
def show_training_info (s : Swimming) : Option InfoMessage := do
  let sp ← s.get_mean_speed
  let cal ← s.get_spent_calories
  pure ⟨"Swimming", s.duration, s.get_distance, sp, cal⟩

end Swimming

/-- The closed set of workout variants a dispatch can produce. -/
inductive Workout where
  | run : Running → Workout
  | wlk : SportsWalking → Workout
  | swm : Swimming → Workout
deriving DecidableEq, Repr

/-- How `read_package` fails: `valueError` is the explicit `ValueError`
raised for an unknown activity code; `typeError` is the `TypeError`
Python raises when the unpacked `data` does not match the arity of the
selected constructor. -/
inductive ReadError where
  | valueError
  | typeError
deriving DecidableEq, Repr

/-- Constructor call `Running(*data)`: succeeds exactly on a 3-element
argument list. -/
def Running.ofData : List ℚ → Option Running
  | [a, d, w] => some ⟨a, d, w⟩
  | _ => none

/-- Constructor call `SportsWalking(*data)`: succeeds exactly on a
4-element argument list; the transient attributes do not exist yet. -/
def SportsWalking.ofData : List ℚ → Option SportsWalking
  | [a, d, w, h] => some ⟨a, d, w, h, none, none⟩
  | _ => none

/-- Constructor call `Swimming(*data)`: succeeds exactly on a 5-element
argument list. -/
def Swimming.ofData : List ℚ → Option Swimming
  | [a, d, w, l, c] => some ⟨a, d, w, l, c⟩
  | _ => none

/-- Dispatcher `read_package(workout_type, data)`: looks `workout_type`
up in the table mapping `SWM` to `Swimming`, `RUN` to `Running` and
`WLK` to `SportsWalking`, raising `ValueError` when the key is absent,
and otherwise calls the selected constructor on the unpacked `data`. -/
def read_package (workout_type : String) (data : List ℚ) :
    Except ReadError Workout :=
  if workout_type = "SWM" then
    match Swimming.ofData data with
    | some s => .ok (.swm s)
    | none => .error .typeError
  else if workout_type = "RUN" then
    match Running.ofData data with
    | some r => .ok (.run r)
    | none => .error .typeError
  else if workout_type = "WLK" then
    match SportsWalking.ofData data with
    | some w => .ok (.wlk w)
    | none => .error .typeError
  else .error .valueError

/-- Round to the nearest integer, ties to even — the rounding used by
the fixed-point conversion of `format` in Python. -/
def roundHalfEven (q : ℚ) : ℤ :=
  if Int.fract q < 1 / 2 then ⌊q⌋
  else if 1 / 2 < Int.fract q then ⌊q⌋ + 1
  else if ⌊q⌋ % 2 = 0 then ⌊q⌋ else ⌊q⌋ + 1

/-- The decimal digit character for `n % 10`. -/
def digitChar (n : ℕ) : Char := Char.ofNat (48 + n % 10)

/-- Zero-padded three-digit rendering of `n` (for `n < 1000`). -/
def pad3 (n : ℕ) : String :=
  ⟨[digitChar (n / 100), digitChar (n / 10), digitChar n]⟩

/-- Fixed-point rendering of a non-negative `q` with three decimals:
integer part, a point, exactly three fractional digits — the `.3f`
conversion of Python applied to a magnitude. -/
def fmt3core (q : ℚ) : String :=
  let n := (roundHalfEven (q * 1000)).toNat
  Nat.repr (n / 1000) ++ "." ++ pad3 (n % 1000)

/-- The `.3f` fixed-point conversion of Python: sign, then the rendering
of the magnitude. -/
def fmt3 (q : ℚ) : String :=
  if q < 0 then "-" ++ fmt3core (-q) else fmt3core q

/-- Method `InfoMessage.get_message`: the class template
(`Тип тренировки: ...; Длительность: ... ч.; Дистанция: ... км;
Ср. скорость: ... км/ч; Потрачено ккал: ....`) instantiated by
`str.format` with the fields of this message — shallowly, the
corresponding string concatenation, with each `.3f` conversion
rendered by `fmt3`. -/
def InfoMessage.get_message (m : InfoMessage) : String :=
  "Тип тренировки: " ++ m.training_type
    ++ "; Длительность: " ++ fmt3 m.duration
    ++ " ч.; Дистанция: " ++ fmt3 m.distance
    ++ " км; Ср. скорость: " ++ fmt3 m.speed
    ++ " км/ч; Потрачено ккал: " ++ fmt3 m.calories ++ "."

/-- A string of the shape integer part, point, exactly three decimal
digits. -/
def fixedPoint3 (s : String) : Prop :=
  ∃ ip fr : String,
    s = ip ++ "." ++ fr ∧ fr.length = 3 ∧ fr.toList.all Char.isDigit = true

/-- C1 (counterexample): on the Running workout built from code `RUN`
and values `[15000, 1, 75]`, `get_spent_calories` does not return
`(18 * 9.75 - 20) * 75 / 1000 * 60` as the claim states — the source
formula adds `COEFF_2 = 1.79` instead of subtracting `20`. -/
theorem running_claimed_formula_false :
    (Running.mk 15000 1 75).get_spent_calories
      ≠ some ((18 * (9.75 : ℚ) - 20) * 75 / 1000 * 60) := by
  have h : (Running.mk 15000 1 75).get_spent_calories = some (159561 / 200) := by
    norm_num [Running.get_spent_calories, Running.get_mean_speed,
      Running.get_distance, Running.COEFF_1, Running.COEFF_2,
      Training.LEN_STEP, Training.M_IN_KM, Training.MIN_IN_H]
  rw [h]
  norm_num

/-- C1 (amended): for every Running workout with positive duration,
`get_spent_calories` returns
`(18 * mean_speed + 1.79) * weight_kg / 1000 * (duration * 60)`,
where `mean_speed = get_distance() / duration`. -/
theorem running_get_spent_calories_eq (r : Running) (h : 0 < r.duration) :
    r.get_spent_calories
      = some ((18 * (r.get_distance / r.duration) + 1.79) * r.weight_kg / 1000
          * (r.duration * 60)) := by
  have hd : r.duration ≠ 0 := ne_of_gt h
  simp [Running.get_spent_calories, Running.get_mean_speed, hd,
    Running.COEFF_1, Running.COEFF_2, Training.M_IN_KM, Training.MIN_IN_H]

/-- C1 (witness): the Running workout from code `RUN` and values
`[15000, 1, 75]` has distance 9.750 km, mean speed 9.750 km/h, and burns
`(18 * 9.75 + 1.79) * 75 / 1000 * 60 = 797.805` calories. -/
theorem running_get_spent_calories_eq_witness :
    (0 : ℚ) < 1
    ∧ (Running.mk 15000 1 75).get_distance = 9.75
    ∧ (Running.mk 15000 1 75).get_mean_speed = some 9.75
    ∧ (Running.mk 15000 1 75).get_spent_calories
        = some ((18 * (9.75 : ℚ) + 1.79) * 75 / 1000 * 60) := by
  refine ⟨by norm_num,
    by norm_num [Running.get_distance, Training.LEN_STEP, Training.M_IN_KM],
    by norm_num [Running.get_mean_speed, Running.get_distance,
      Training.LEN_STEP, Training.M_IN_KM], ?_⟩
  rw [running_get_spent_calories_eq (Running.mk 15000 1 75) (by norm_num)]
  norm_num [Running.get_distance, Training.LEN_STEP, Training.M_IN_KM]

/-- C2: on a freshly constructed SportsWalking workout with positive
duration and positive height, the first call of `get_spent_calories`
returns
`(0.035 * weight_kg + ((mean_speed * 0.278) ^ 2 / (height_cm / 100))
  * 0.029 * weight_kg) * (duration * 60)`
with true (rational) division in the speed-squared-over-height term. -/
theorem sportsWalking_first_call_calories (w : SportsWalking)
    (hd : 0 < w.duration) (hh : 0 < w.height_cm) :
    (w.get_spent_calories).1
      = some ((0.035 * w.weight_kg
          + (((w.get_distance / w.duration) * 0.278) ^ 2 / (w.height_cm / 100))
            * 0.029 * w.weight_kg) * (w.duration * 60)) := by
  have hd0 : w.duration ≠ 0 := ne_of_gt hd
  have hh0 : w.height_cm / SportsWalking.H_MET ≠ 0 := by
    unfold SportsWalking.H_MET
    exact div_ne_zero (ne_of_gt hh) (by norm_num)
  simp only [SportsWalking.get_spent_calories, SportsWalking.get_mean_speed,
    hd0, if_false, ite_false, if_neg hh0]
  simp [SportsWalking.COEFF_3, SportsWalking.COEFF_4, SportsWalking.M_IN_SEC,
    SportsWalking.H_MET, Training.MIN_IN_H]

/-- C2 (witness): the SportsWalking workout from code `WLK` and values
`[9000, 1, 75, 180]` has mean speed 5.85 km/h and its first
`get_spent_calories` call returns the claimed formula value. -/
theorem sportsWalking_first_call_calories_witness :
    (0 : ℚ) < 1 ∧ (0 : ℚ) < 180
    ∧ ((SportsWalking.mk 9000 1 75 180 none none).get_spent_calories).1
        = some ((0.035 * 75
            + (((5.85 : ℚ) * 0.278) ^ 2 / (180 / 100)) * 0.029 * 75) * 60) := by
  refine ⟨by norm_num, by norm_num, ?_⟩
  rw [sportsWalking_first_call_calories (SportsWalking.mk 9000 1 75 180 none none)
    (by norm_num) (by norm_num)]
  norm_num [SportsWalking.get_distance, Training.LEN_STEP, Training.M_IN_KM]

/-- C3 (counterexample): on the SportsWalking workout from values
`[9000, 1, 75, 180]`, `get_spent_calories` rewrites the persisted
`height_cm` field (180 becomes 1.8), and a repeated invocation of the
same query returns a different result — refuting the claim that every
query leaves all persisted fields unchanged. -/
theorem query_fields_unchanged_false :
    (((SportsWalking.mk 9000 1 75 180 none none).get_spent_calories).2).height_cm
      ≠ (SportsWalking.mk 9000 1 75 180 none none).height_cm
    ∧ ((((SportsWalking.mk 9000 1 75 180 none none).get_spent_calories).2).get_spent_calories).1
      ≠ ((SportsWalking.mk 9000 1 75 180 none none).get_spent_calories).1 := by
  norm_num [SportsWalking.get_spent_calories, SportsWalking.get_mean_speed,
    SportsWalking.get_distance, SportsWalking.COEFF_3, SportsWalking.COEFF_4,
    SportsWalking.M_IN_SEC, SportsWalking.H_MET, Training.LEN_STEP,
    Training.M_IN_KM, Training.MIN_IN_H]

/-- C3 (amended): every call of `SportsWalking.get_spent_calories` with
nonzero duration leaves `action`, `duration` and `weight_kg` unchanged
but rescales the persisted `height_cm` to `height_cm / 100`; whenever
`height_cm` is nonzero the stored value therefore actually changes (so
repeated invocations are not equal in general).  The query operations of
`Running` and `Swimming`, and `get_distance` and `get_mean_speed` of
every variant, are pure functions of the object in this embedding. -/
theorem sportsWalking_get_spent_calories_state (w : SportsWalking)
    (hd : w.duration ≠ 0) :
    ((w.get_spent_calories).2).height_cm = w.height_cm / 100
    ∧ ((w.get_spent_calories).2).action = w.action
    ∧ ((w.get_spent_calories).2).duration = w.duration
    ∧ ((w.get_spent_calories).2).weight_kg = w.weight_kg
    ∧ (w.height_cm ≠ 0 → ((w.get_spent_calories).2).height_cm ≠ w.height_cm) := by
  have hbase : (w.get_spent_calories).2
      = { w with height_cm := w.height_cm / 100,
                 speed_ms := some ((w.get_distance / w.duration)
                   * SportsWalking.M_IN_SEC),
                 time_in_min := some (w.duration * Training.MIN_IN_H) } := by
    simp only [SportsWalking.get_spent_calories, SportsWalking.get_mean_speed,
      hd, if_false, ite_false, SportsWalking.H_MET]
    split <;> rfl
  refine ⟨by rw [hbase], by rw [hbase], by rw [hbase], by rw [hbase], ?_⟩
  intro hh heq
  rw [hbase] at heq
  have heq2 : w.height_cm / 100 = w.height_cm := heq
  exact hh (by linarith)

/-- C3 (witness): on the workout from values `[9000, 1, 75, 180]` the
stored height after one `get_spent_calories` call is `180 / 100`. -/
theorem sportsWalking_get_spent_calories_state_witness :
    ((1 : ℚ) ≠ 0)
    ∧ (((SportsWalking.mk 9000 1 75 180 none none).get_spent_calories).2).height_cm
        = 180 / 100 := by
  refine ⟨by norm_num, ?_⟩
  exact (sportsWalking_get_spent_calories_state
    (SportsWalking.mk 9000 1 75 180 none none) (by norm_num)).1

/-- C4: for every Swimming workout with positive duration,
`get_mean_speed` returns
`length_pool * count_pool / 1000 / duration`, and the result does not
depend on the stroke count `action` (the formula also never mentions the
step-length constant). -/
theorem swimming_get_mean_speed_eq (s : Swimming) (h : 0 < s.duration) :
    s.get_mean_speed = some (s.length_pool * s.count_pool / 1000 / s.duration)
    ∧ ∀ a : ℚ,
        (Swimming.mk a s.duration s.weight_kg s.length_pool
          s.count_pool).get_mean_speed = s.get_mean_speed := by
  have hd : s.duration ≠ 0 := ne_of_gt h
  exact ⟨by simp [Swimming.get_mean_speed, hd, Training.M_IN_KM],
    fun a => rfl⟩

/-- C4 (witness): the Swimming workout from code `SWM` and values
`[720, 1, 80, 25, 40]` has mean speed `25 * 40 / 1000 / 1`, and changing
the stroke count to 999 does not change it. -/
theorem swimming_get_mean_speed_eq_witness :
    (0 : ℚ) < 1
    ∧ (Swimming.mk 720 1 80 25 40).get_mean_speed = some (25 * 40 / 1000 / 1)
    ∧ (Swimming.mk 999 1 80 25 40).get_mean_speed
        = (Swimming.mk 720 1 80 25 40).get_mean_speed := by
  have h := swimming_get_mean_speed_eq (Swimming.mk 720 1 80 25 40) (by norm_num)
  exact ⟨by norm_num, h.1, h.2 999⟩

/-- C5: for every Swimming workout with positive duration,
`get_spent_calories` returns
`(mean_speed + 1.1) * 2 * weight_kg * duration`. -/
theorem swimming_get_spent_calories_eq (s : Swimming) (h : 0 < s.duration) :
    s.get_spent_calories
      = some ((s.length_pool * s.count_pool / 1000 / s.duration + 1.1) * 2
          * s.weight_kg * s.duration) := by
  have hd : s.duration ≠ 0 := ne_of_gt h
  simp [Swimming.get_spent_calories, Swimming.get_mean_speed, hd,
    Swimming.COEFF_5, Swimming.COEFF_6, Training.M_IN_KM]

/-- C5 (witness): the Swimming workout from code `SWM` and values
`[720, 1, 80, 25, 40]` has mean speed exactly 1 km/h and burns exactly
336 calories. -/
theorem swimming_get_spent_calories_eq_witness :
    (0 : ℚ) < 1
    ∧ (Swimming.mk 720 1 80 25 40).get_mean_speed = some 1
    ∧ (Swimming.mk 720 1 80 25 40).get_spent_calories = some 336 := by
  refine ⟨by norm_num,
    by norm_num [Swimming.get_mean_speed, Training.M_IN_KM], ?_⟩
  rw [swimming_get_spent_calories_eq (Swimming.mk 720 1 80 25 40) (by norm_num)]
  norm_num

/-- C6: `read_package` fails with the unknown-key `ValueError` exactly
when the code is none of `SWM`, `RUN`, `WLK` (and then returns no
object at all), and whenever it succeeds on a recognized code the
constructed object is an instance of exactly the mapped variant. -/
theorem read_package_error_spec (c : String) (d : List ℚ) :
    (read_package c d = .error .valueError
      ↔ c ≠ "SWM" ∧ c ≠ "RUN" ∧ c ≠ "WLK")
    ∧ (∀ w : Workout, read_package c d = .ok w →
        (c = "SWM" ∧ ∃ s, w = .swm s) ∨ (c = "RUN" ∧ ∃ r, w = .run r)
          ∨ (c = "WLK" ∧ ∃ k, w = .wlk k)) := by
  by_cases h1 : c = "SWM"
  · subst h1
    refine ⟨?_, ?_⟩
    · cases hs : Swimming.ofData d <;> simp [read_package, hs]
    · intro w hw
      cases hs : Swimming.ofData d with
      | none => simp [read_package, hs] at hw
      | some s =>
        simp [read_package, hs] at hw
        exact Or.inl ⟨rfl, s, hw.symm⟩
  · by_cases h2 : c = "RUN"
    · subst h2
      refine ⟨?_, ?_⟩
      · cases hr : Running.ofData d <;> simp [read_package, hr]
      · intro w hw
        cases hr : Running.ofData d with
        | none => simp [read_package, hr] at hw
        | some r =>
          simp [read_package, hr] at hw
          exact Or.inr (Or.inl ⟨rfl, r, hw.symm⟩)
    · by_cases h3 : c = "WLK"
      · subst h3
        refine ⟨?_, ?_⟩
        · cases hk : SportsWalking.ofData d <;> simp [read_package, hk]
        · intro w hw
          cases hk : SportsWalking.ofData d with
          | none => simp [read_package, hk] at hw
          | some k =>
            simp [read_package, hk] at hw
            exact Or.inr (Or.inr ⟨rfl, k, hw.symm⟩)
      · refine ⟨?_, ?_⟩
        · simp [read_package, h1, h2, h3]
        · intro w hw
          simp [read_package, h1, h2, h3] at hw

/-- C6 (witness): the unrecognized code `XYZ` makes `read_package` fail
with the unknown-key error. -/
theorem read_package_error_spec_witness :
    (read_package "XYZ" [720, 1, 80, 25, 40] = .error .valueError
      ↔ "XYZ" ≠ "SWM" ∧ "XYZ" ≠ "RUN" ∧ "XYZ" ≠ "WLK")
    ∧ read_package "XYZ" [720, 1, 80, 25, 40] = .error .valueError := by
  have h := read_package_error_spec "XYZ" [720, 1, 80, 25, 40]
  exact ⟨h.1, h.1.mpr ⟨by decide, by decide, by decide⟩⟩

/-- C7: for each recognized code and a values list of the matching arity
(3 for Running, 4 for SportsWalking, 5 for Swimming), `read_package`
returns exactly the variant built by the direct constructor from the
same values in the same positional order (so all fields read back
equal). -/
theorem read_package_roundtrip (a d w h l c : ℚ) :
    read_package "RUN" [a, d, w] = .ok (.run ⟨a, d, w⟩)
    ∧ read_package "WLK" [a, d, w, h] = .ok (.wlk ⟨a, d, w, h, none, none⟩)
    ∧ read_package "SWM" [a, d, w, l, c] = .ok (.swm ⟨a, d, w, l, c⟩) := by
  refine ⟨rfl, rfl, rfl⟩

/-- C8: for the variants using the base `get_mean_speed` (Running and
SportsWalking), the result is `get_distance() / duration`, the division
error happens exactly when the duration is zero, and that error is not
caught: it propagates through `show_training_info` to the caller. -/
theorem mean_speed_zero_duration_spec (r : Running) (w : SportsWalking) :
    (r.get_mean_speed = none ↔ r.duration = 0)
    ∧ (r.duration ≠ 0 → r.get_mean_speed = some (r.get_distance / r.duration))
    ∧ (w.get_mean_speed = none ↔ w.duration = 0)
    ∧ (w.duration ≠ 0 → w.get_mean_speed = some (w.get_distance / w.duration))
    ∧ (r.duration = 0 → r.show_training_info = none)
    ∧ (w.duration = 0 → (w.show_training_info).1 = none) := by
  refine ⟨?_, ?_, ?_, ?_, ?_, ?_⟩
  · by_cases hd : r.duration = 0 <;> simp [Running.get_mean_speed, hd]
  · intro hd; simp [Running.get_mean_speed, hd]
  · by_cases hd : w.duration = 0 <;> simp [SportsWalking.get_mean_speed, hd]
  · intro hd; simp [SportsWalking.get_mean_speed, hd]
  · intro hd
    simp [Running.show_training_info, Running.get_mean_speed, hd]
  · intro hd
    simp [SportsWalking.show_training_info, SportsWalking.get_mean_speed, hd]

/-- C8 (witness): a Running and a SportsWalking workout with zero
duration raise in `get_mean_speed` and the error propagates out of
`show_training_info`. -/
theorem mean_speed_zero_duration_spec_witness :
    (Running.mk 15000 0 75).get_mean_speed = none
    ∧ (Running.mk 15000 0 75).show_training_info = none
    ∧ ((SportsWalking.mk 9000 0 75 180 none none).show_training_info).1 = none := by
  have h := mean_speed_zero_duration_spec (Running.mk 15000 0 75)
    (SportsWalking.mk 9000 0 75 180 none none)
  exact ⟨h.1.mpr rfl, h.2.2.2.2.1 rfl, h.2.2.2.2.2 rfl⟩

/-- Helper: the character produced by `digitChar` is a decimal digit. -/
theorem digitChar_isDigit (n : ℕ) : (digitChar n).isDigit = true := by
  suffices H : ∀ k, k < 10 → (Char.ofNat (48 + k)).isDigit = true by
    exact H (n % 10) (Nat.mod_lt _ (by norm_num))
  intro k hk
  interval_cases k <;> decide

/-- Helper: `pad3` always renders exactly three characters. -/
theorem pad3_length (n : ℕ) : (pad3 n).length = 3 := rfl

/-- Helper: every character rendered by `pad3` is a decimal digit. -/
theorem pad3_digits (n : ℕ) : (pad3 n).toList.all Char.isDigit = true := by
  simp [pad3, String.toList, digitChar_isDigit]

/-- Helper: the fixed-point rendering of a non-negative rational is an
integer part, a point, and exactly three decimal digits. -/
theorem fmt3_fixedPoint3 (q : ℚ) (h : 0 ≤ q) : fixedPoint3 (fmt3 q) := by
  have hneg : ¬ q < 0 := not_lt.mpr h
  refine ⟨Nat.repr ((roundHalfEven (q * 1000)).toNat / 1000),
          pad3 ((roundHalfEven (q * 1000)).toNat % 1000), ?_,
          pad3_length _, pad3_digits _⟩
  simp [fmt3, hneg, fmt3core]

/-- C9: for every report with non-negative numeric fields,
`get_message` is exactly the template
`Тип тренировки: ...; Длительность: ... ч.; Дистанция: ... км;
Ср. скорость: ... км/ч; Потрачено ккал: ....` — trailing period and
units included — and each of the four numeric renderings is
fixed-point: an integer part, a point, and exactly three decimal
digits. -/
theorem infoMessage_get_message_spec (m : InfoMessage)
    (h1 : 0 ≤ m.duration) (h2 : 0 ≤ m.distance)
    (h3 : 0 ≤ m.speed) (h4 : 0 ≤ m.calories) :
    m.get_message
      = "Тип тренировки: " ++ m.training_type
        ++ "; Длительность: " ++ fmt3 m.duration
        ++ " ч.; Дистанция: " ++ fmt3 m.distance
        ++ " км; Ср. скорость: " ++ fmt3 m.speed
        ++ " км/ч; Потрачено ккал: " ++ fmt3 m.calories ++ "."
    ∧ fixedPoint3 (fmt3 m.duration) ∧ fixedPoint3 (fmt3 m.distance)
    ∧ fixedPoint3 (fmt3 m.speed) ∧ fixedPoint3 (fmt3 m.calories) :=
  ⟨rfl, fmt3_fixedPoint3 _ h1, fmt3_fixedPoint3 _ h2,
   fmt3_fixedPoint3 _ h3, fmt3_fixedPoint3 _ h4⟩

/-- C9 (witness): the report of the sample Running workout renders its
calories fixed-point with three decimals. -/
theorem infoMessage_get_message_spec_witness :
    (0 : ℚ) ≤ 1 ∧ (0 : ℚ) ≤ 9.75 ∧ (0 : ℚ) ≤ 797.805
    ∧ fixedPoint3 (fmt3 (797.805 : ℚ)) := by
  refine ⟨by norm_num, by norm_num, by norm_num, ?_⟩
  exact (infoMessage_get_message_spec ⟨"Running", 1, 9.75, 9.75, 797.805⟩
    (by norm_num) (by norm_num) (by norm_num) (by norm_num)).2.2.2.2

/-- C10: a SportsWalking workout with zero height and positive duration
raises a division-by-zero error in `get_spent_calories` — the degenerate
input is reachable and not ruled out by the duration invariant. -/
theorem sportsWalking_zero_height_raises (w : SportsWalking)
    (hd : 0 < w.duration) (hh : w.height_cm = 0) :
    (w.get_spent_calories).1 = none := by
  have hd0 : w.duration ≠ 0 := ne_of_gt hd
  simp [SportsWalking.get_spent_calories, SportsWalking.get_mean_speed,
    hd0, hh, SportsWalking.H_MET]

/-- C10 (witness): the walking workout from values `[9000, 1, 75, 0]`
raises in `get_spent_calories`. -/
theorem sportsWalking_zero_height_raises_witness :
    (0 : ℚ) < 1
    ∧ ((SportsWalking.mk 9000 1 75 0 none none).get_spent_calories).1 = none := by
  exact ⟨by norm_num, sportsWalking_zero_height_raises
    (SportsWalking.mk 9000 1 75 0 none none) (by norm_num) rfl⟩
